import Mathlib

/-!
Verification development for the nova_project pipeline.

The Python sources under src/ are shallowly embedded: pure computations
become Lean functions over ℚ (Python floats are modelled as exact
rationals), String and List; code that can raise returns Option; the
external embedding capability and the wall clock are passed in as
parameters. Source files embedded here: src/cores/lumen_core.py,
src/cores/nova_core.py, src/api/orchestrator.py.
-/

set_option linter.unusedVariables false

namespace NovaProject

/-- Does the character list start at some position of the second list?
Helper for the Python substring test. -/
def containsAux (needle : List Char) : List Char → Bool
  | [] => needle.isEmpty
  | c :: rest => needle.isPrefixOf (c :: rest) || containsAux needle rest

/-- Python substring test, "needle in haystack". -/
def strContains (haystack needle : String) : Bool :=
  containsAux needle.toList haystack.toList

/-- One analogy item of the associative (orvyn) payload:
a snippet, a similarity and a set of tags. -/
structure Analogy where
  snippet : String
  similarity : ℚ
  tags : List String
deriving DecidableEq, Repr

/-- The map nested inside the orvyn payload that lumen reads
innovation_potential from. -/
structure ResonanceMap where
  innovation_potential : ℚ
deriving DecidableEq, Repr

/-- The associative worker payload as read by lumen_core.py:
analogies, domain_coverage, resonance_map.innovation_potential,
confidence. -/
structure OrvynPayload where
  analogies : List Analogy
  domain_coverage : ℕ
  resonance_map : ResonanceMap
  confidence : ℚ
deriving DecidableEq, Repr

/-- An orvyn message on the core_results channel. -/
structure OrvynResult where
  request_id : String
  payload : OrvynPayload
deriving DecidableEq, Repr

/-- The logic_tree part of the analytic payload (the fields that
nova_core constructs and that survive into the fallback result). -/
structure LogicTree where
  root : String
  steps : List String
  complexity : String
  domain : String
deriving DecidableEq, Repr

/-- The analytic worker payload: logic_tree, candidate_actions,
confidence. -/
structure NovaPayload where
  logic_tree : LogicTree
  candidate_actions : List String
  confidence : ℚ
deriving DecidableEq, Repr

/-- A nova message on the core_results channel. -/
structure NovaResult where
  request_id : String
  payload : NovaPayload
deriving DecidableEq, Repr

/-! lumen_core.py: policy thresholds from LumenCore.policy_thresholds. -/

def policy_thresholds_alignment_high : ℚ := 0.75

def policy_thresholds_alignment_mid : ℚ := 0.45

def policy_thresholds_conflict_mid : ℚ := 0.35

/-- LumenCore.calculate_alignment_score.  The embedding model call is
external and fallible; its raw dot-product outcome is the parameter:
some v means the model returned v, none means the try body raised, in
which case the except branch returns the neutral 0.5.  A returned value
is normalised by max(0, min(1, v)). -/
def calculate_alignment_score (embed_result : Option ℚ) : ℚ :=
  match embed_result with
  | some v => max 0 (min 1 v)
  | none => 0.5

/-- Models the Python str(orvyn_result) rendering as far as the
substring check in calculate_conflict_score needs it: the textual
fields of the message (request id, core tag, snippets and tags) appear
verbatim in the rendered string, separated by punctuation that cannot
form new letter sequences. -/
def orvynResultStr (r : OrvynResult) : String :=
  String.intercalate ", "
    ([r.request_id, "orvyn"]
      ++ r.payload.analogies.map (fun a => a.snippet ++ ", " ++ String.intercalate ", " a.tags)
      ++ [toString r.payload.domain_coverage])

/-- The two antonym-heuristic checks that the loop body of
LumenCore.calculate_conflict_score performs for one candidate action,
returning how many indicators that action contributes (0, 1 or 2). -/
def conflict_checks (orvyn_domains : List String) (orvyn_str_lower : String)
    (action : String) : ℕ :=
  let action_lower := action.toLower
  (if strContains action_lower "traditional" && orvyn_domains.contains "innovation"
    then 1 else 0)
  + (if strContains action_lower "reduce" && strContains orvyn_str_lower "increase"
    then 1 else 0)

/-- LumenCore.calculate_conflict_score: conflict_indicators summed over
the candidate actions (each action runs both checks and total_checks is
incremented once per action), divided by max(total_checks, 1). -/
def calculate_conflict_score (nova_result : NovaResult) (orvyn_result : OrvynResult) : ℚ :=
  let nova_actions := nova_result.payload.candidate_actions
  let orvyn_domains := (orvyn_result.payload.analogies.map (fun a => a.tags)).flatten
  let orvyn_str_lower := (orvynResultStr orvyn_result).toLower
  let conflict_indicators := (nova_actions.map (conflict_checks orvyn_domains orvyn_str_lower)).sum
  let total_checks := nova_actions.length
  (conflict_indicators : ℚ) / (max total_checks 1 : ℚ)

/-- LumenCore.calculate_novelty_score:
innovation variable times 0.7 plus domain_coverage divided by 5 times 0.3,
then min with 1.0 (no lower clamp in the source). -/
def calculate_novelty_score (orvyn_result : OrvynResult) : ℚ :=
  let orvyn_innovation := orvyn_result.payload.resonance_map.innovation_potential
  let domain_coverage : ℚ := orvyn_result.payload.domain_coverage
  let novelty := orvyn_innovation * 0.7 + domain_coverage / 5 * 0.3
  min novelty 1

/-- LumenCore.select_strategy: ordered first-match policy over the
alignment and conflict thresholds; the novelty argument is accepted but
never read. -/
def select_strategy (alignment conflict novelty : ℚ) : String :=
  if alignment ≥ policy_thresholds_alignment_high then "harmony"
  else if alignment ≥ policy_thresholds_alignment_mid ∧ conflict ≥ policy_thresholds_conflict_mid then "creative"
  else "conservative"

/-- LumenCore.calculate_confidence: weighted combination of the two
worker confidences, an alignment boost and a conflict penalty, clamped
by max(0, min(1, _)). -/
def calculate_confidence (alignment conflict novelty nova_conf orvyn_conf : ℚ) : ℚ :=
  let base_confidence := nova_conf * 0.4 + orvyn_conf * 0.3
  let alignment_boost := alignment * 0.2
  let conflict_penalty := conflict * 0.1
  max 0 (min 1 (base_confidence + alignment_boost - conflict_penalty))

/-- Python max(analogies, key=similarity): none on an empty list (the
source raises ValueError there), otherwise the first element of maximal
similarity (an item replaces the current best only when strictly
larger). -/
def max_by_similarity : List Analogy → Option Analogy
  | [] => none
  | x :: xs => some (xs.foldl (fun best a => if best.similarity < a.similarity then a else best) x)

/-- Stable insert of an analogy into a similarity-ascending list;
helper modelling Python sorted. -/
def insertBySimilarity (a : Analogy) : List Analogy → List Analogy
  | [] => [a]
  | b :: bs => if b.similarity ≤ a.similarity then b :: insertBySimilarity a bs else a :: b :: bs

/-- Python sorted(analogies, key=similarity): stable, ascending. -/
def sortBySimilarity : List Analogy → List Analogy
  | [] => []
  | a :: as => insertBySimilarity a (sortBySimilarity as)

/-- LumenCore._harmony_fusion.  Python max() over the analogies raises
ValueError when the list is empty: modelled as none.  An empty action
list gets the placeholder "the identified solution". -/
def harmony_fusion (nova_actions : List String) (orvyn_analogies : List Analogy) : Option String :=
  (max_by_similarity orvyn_analogies).map fun strongest =>
    "Based on analytical planning and supported by " ++ strongest.snippet
      ++ ", focus on " ++ (nova_actions.head?.getD "the identified solution")
      ++ " with cross-domain validation."

/-- LumenCore._creative_fusion.  The source sorts the analogies by
similarity ascending, takes the first two and indexes [0] and [1]:
with fewer than two analogies the index raises IndexError, modelled as
none.  An empty action list gets the placeholder "analytical
approach". -/
def creative_fusion (nova_actions : List String) (orvyn_analogies : List Analogy) : Option String :=
  match (sortBySimilarity orvyn_analogies).take 2 with
  | a0 :: a1 :: _ =>
    some ("Creative synthesis suggests combining "
      ++ (nova_actions.head?.getD "analytical approach")
      ++ " with insights from " ++ a0.snippet ++ " and " ++ a1.snippet
      ++ " for innovative solutions.")
  | _ => none

/-- LumenCore._conservative_synthesis: total, both empty lists are
guarded (empty analogies give an empty hint, empty actions give the
placeholder "proceed with analytical framework"). -/
def conservative_synthesis (nova_actions : List String) (orvyn_analogies : List Analogy) : String :=
  let hint :=
    match orvyn_analogies.head? with
    | some a => " Consider parallels with " ++ a.snippet ++ " for additional context."
    | none => ""
  "Primary recommendation: "
    ++ (nova_actions.head?.getD "proceed with analytical framework") ++ "." ++ hint

/-- Two-decimal rendering of a score, modelling the Python format
specifier .2f on the nonnegative scores that reach it (rounding half
up rather than half to even; the difference never matters for the
inputs used here). -/
def format2 (x : ℚ) : String :=
  let n : ℤ := ⌊x * 100 + 1 / 2⌋
  let r : ℤ := n % 100
  toString (n / 100) ++ "." ++ (if r < 10 then "0" else "") ++ toString r

/-- LumenCore.generate_insight: builds the rationale lines, then
dispatches on the strategy to one of the template functions; a
template crash (none) aborts the whole call. -/
def generate_insight (nova_result : NovaResult) (orvyn_result : OrvynResult)
    (strategy : String) (alignment conflict : ℚ) : Option (String × List String) :=
  let nova_actions := nova_result.payload.candidate_actions
  let orvyn_analogies := orvyn_result.payload.analogies
  let rationale : List String :=
    [ "nova: " ++ toString nova_actions.length ++ " candidate actions"
    , "orvyn: " ++ toString orvyn_analogies.length ++ " analogies across "
        ++ toString orvyn_result.payload.domain_coverage ++ " domains"
    , "synthesis: " ++ strategy ++ " strategy (alignment: " ++ format2 alignment
        ++ ", conflict: " ++ format2 conflict ++ ")" ]
  let insight : Option String :=
    if strategy = "harmony" then harmony_fusion nova_actions orvyn_analogies
    else if strategy = "creative" then creative_fusion nova_actions orvyn_analogies
    else some (conservative_synthesis nova_actions orvyn_analogies)
  insight.map fun i => (i, rationale)

/-- The meta block of a lumen decision. -/
structure DecisionMeta where
  alignment_score : ℚ
  conflict_score : ℚ
  novelty_score : ℚ
  strategy : String
  nova_confidence : ℚ
  orvyn_confidence : ℚ
deriving DecidableEq, Repr

/-- A lumen decision as published on the lumen_decisions channel (the
wall-clock timestamp is environmental and omitted). -/
structure Decision where
  request_id : String
  insight : String
  meta : DecisionMeta
  rationale : List String
  confidence : ℚ
deriving DecidableEq, Repr

/-- LumenCore.process_core_results: computes the three scores, selects
the strategy, generates the insight and rationale, computes the
confidence and assembles the decision.  The external embedding
outcome feeding calculate_alignment_score is the first parameter; a
template crash inside generate_insight propagates as none. -/
def process_core_results (embed_result : Option ℚ)
    (nova_result : NovaResult) (orvyn_result : OrvynResult) : Option Decision :=
  let alignment_score := calculate_alignment_score embed_result
  let conflict_score := calculate_conflict_score nova_result orvyn_result
  let novelty_score := calculate_novelty_score orvyn_result
  let strategy := select_strategy alignment_score conflict_score novelty_score
  (generate_insight nova_result orvyn_result strategy alignment_score conflict_score).map
    fun p =>
      { request_id := nova_result.request_id
        insight := p.1
        meta :=
          { alignment_score := alignment_score
            conflict_score := conflict_score
            novelty_score := novelty_score
            strategy := strategy
            nova_confidence := nova_result.payload.confidence
            orvyn_confidence := orvyn_result.payload.confidence }
        rationale := p.2
        confidence := calculate_confidence alignment_score conflict_score novelty_score
          nova_result.payload.confidence orvyn_result.payload.confidence }

/-- Modelled from the spec: the orvyn worker payload construction (its
process_request) is missing from src (orvyn_core.py stops after
find_analogies), so the confidence field it writes is modelled from
the spec, which takes the associative confidence to be the maximum
analogy similarity (0 when there are no analogies). -/
def orvyn_confidence_spec (analogies : List Analogy) : ℚ :=
  (analogies.map (fun a => a.similarity)).foldl max 0

/-- The novelty formula as the spec words it: 0.7 times
innovation_potential plus 0.3 times min(domain_coverage/5, 1), clamped
to [0,1].  Stated for comparison against calculate_novelty_score. -/
def novelty_spec_formula (innovation_potential : ℚ) (domain_coverage : ℕ) : ℚ :=
  max 0 (min 1 (0.7 * innovation_potential + 0.3 * min ((domain_coverage : ℚ) / 5) 1))

/-! src/cores/nova_core.py: the analytic worker. -/

/-- NovaCore._calculate_confidence: base is the query length divided by
100 capped at 0.8, plus 0.05 per candidate action, the total capped at
0.95. -/
def nova_calculate_confidence (query : String) (actions : List String) : ℚ :=
  let base_confidence := min ((query.length : ℚ) / 100) 0.8
  let action_bonus := (actions.length : ℚ) * 0.05
  min (base_confidence + action_bonus) 0.95

/-- NovaCore._create_fallback_result: the degraded result built in the
except branch of process_request. -/
def create_fallback_result (request_id query : String) : NovaResult :=
  { request_id := request_id
    payload :=
      { logic_tree :=
          { root := "анализ"
            steps := ["Базовый анализ запроса", "Формирование рекомендаций"]
            complexity := "unknown"
            domain := "general" }
        candidate_actions := ["Базовое решение для: " ++ query]
        confidence := 0.3 } }

/-- NovaCore.process_request, with the outcome of the try body as a
parameter: some payload means the computation succeeded, none means it
raised.  Returns the list of messages the call adds to the
core_results channel via xadd, paired with the value returned to the
read loop.  In the source the xadd sits inside the try body only; the
except branch logs and returns the fallback result without publishing
it, and start_listening discards the returned value. -/
def nova_process_request (computed : Option NovaPayload)
    (request_id query : String) : List NovaResult × NovaResult :=
  match computed with
  | some payload =>
    let result : NovaResult := { request_id := request_id, payload := payload }
    ([result], result)
  | none => ([], create_fallback_result request_id query)

/-! src/api/orchestrator.py: the gateway endpoint. -/

/-- An HTTPException as raised by the endpoint: status code and
detail. -/
structure HttpError where
  status : ℕ
  detail : String
deriving DecidableEq, Repr

/-- The default overall timeout of wait_for_lumen_decision, in
seconds. -/
def wait_for_lumen_decision_default_timeout : ℕ := 10

/-- The try body of think_endpoint, with the outcome of
wait_for_lumen_decision as the parameter: some decision builds the
response, none (timeout after the overall bound) raises
HTTPException(408, "Timeout waiting for processing"). -/
def think_endpoint_try (lumen_decision : Option Decision) : Except HttpError Decision :=
  match lumen_decision with
  | some d => Except.ok d
  | none => Except.error { status := 408, detail := "Timeout waiting for processing" }

/-- think_endpoint as the caller observes it.  The whole try body sits
inside a blanket except Exception handler, and HTTPException is a
subclass of Exception, so the 408 raised on timeout is caught there
and re-raised as HTTPException(500, "Ошибка обработки запроса: " plus
str(e)); str of an HTTPException renders as "status: detail". -/
def think_endpoint (lumen_decision : Option Decision) : Except HttpError Decision :=
  match think_endpoint_try lumen_decision with
  | Except.ok r => Except.ok r
  | Except.error e =>
    Except.error
      { status := 500
        detail := "Ошибка обработки запроса: " ++ toString e.status ++ ": " ++ e.detail }

/-- The HTTP status the caller sees. -/
def response_status (r : Except HttpError Decision) : ℕ :=
  match r with
  | Except.ok _ => 200
  | Except.error e => e.status

/-! LumenCore.start_listening: the correlation read loop.  The loop
xreads the core_results stream from id 0 on every iteration, so under
at-least-once delivery it re-observes every earlier message.  Its only
state is the local results_cache dict; the model folds the observed
message sequence through one cache step and records the request_id of
every decision publish. -/

/-- A core_results message as the read loop keys it: request_id and
core tag ("nova" or "orvyn"). -/
structure CoreMsg where
  request_id : String
  core : String
deriving DecidableEq, Repr

/-- One per-request cache entry: the Python dict core -> message,
modelled as an association list where assignment overwrites an
existing key. -/
def dict_set (d : List (String × CoreMsg)) (k : String) (v : CoreMsg) :
    List (String × CoreMsg) :=
  if d.any (fun p => p.1 == k) then
    d.map (fun p => if p.1 == k then (k, v) else p)
  else d ++ [(k, v)]

/-- The results_cache dict request_id -> (core -> message). -/
def cache_set (c : List (String × List (String × CoreMsg))) (k : String)
    (v : List (String × CoreMsg)) : List (String × List (String × CoreMsg)) :=
  if c.any (fun p => p.1 == k) then
    c.map (fun p => if p.1 == k then (k, v) else p)
  else c ++ [(k, v)]

/-- Deleting a request_id from the results_cache. -/
def cache_del (c : List (String × List (String × CoreMsg))) (k : String) :
    List (String × List (String × CoreMsg)) :=
  c.filter (fun p => p.1 != k)

/-- One message observation of LumenCore.start_listening: store the
message in results_cache under (request_id, core); if the entry then
holds 2 results and both the nova and the orvyn result are present,
process_core_results runs (publishing one decision for that
request_id, recorded here by its id) and the entry is deleted.  No
record of already decided request_ids survives the deletion. -/
def lumen_step (st : List (String × List (String × CoreMsg)) × List String)
    (m : CoreMsg) : List (String × List (String × CoreMsg)) × List String :=
  let cache := st.1
  let decided := st.2
  let entry := ((cache.lookup m.request_id).getD [])
  let entry2 := dict_set entry m.core m
  let cache2 := cache_set cache m.request_id entry2
  if entry2.length == 2 && (entry2.lookup "nova").isSome && (entry2.lookup "orvyn").isSome then
    (cache_del cache2 m.request_id, decided ++ [m.request_id])
  else
    (cache2, decided)

/-- The read loop run over a finite observed message sequence, starting
from the empty cache; returns the final cache and the request_ids of
the published decisions in order. -/
def lumen_run (msgs : List CoreMsg) : List (String × List (String × CoreMsg)) × List String :=
  msgs.foldl lumen_step ([], [])

/-- The detail string the caller sees on an error response. -/
def response_detail (r : Except HttpError Decision) : String :=
  match r with
  | Except.ok _ => ""
  | Except.error e => e.detail

/-! Concrete example messages used by witnesses and counterexamples. -/

/-- Analytic result of the spec scenario: one candidate action, worker
confidence 0.7. -/
def novaEx : NovaResult :=
  { request_id := "r1"
    payload :=
      { logic_tree := { root := "water", steps := [], complexity := "low", domain := "water" }
        candidate_actions := ["Reduce water waste"]
        confidence := 0.7 } }

/-- Associative result of the spec scenario: one analogy of similarity
0.9, domain_coverage 2, innovation_potential 0.6; confidence 0.9, the
maximum analogy similarity. -/
def orvynEx : OrvynResult :=
  { request_id := "r1"
    payload :=
      { analogies := [{ snippet := "rainwater harvesting", similarity := 0.9, tags := ["sustainability"] }]
        domain_coverage := 2
        resonance_map := { innovation_potential := 0.6 }
        confidence := 0.9 } }

/-- The decision that process_core_results produces from novaEx and
orvynEx with embedding outcome 0.8. -/
def decisionEx : Decision :=
  { request_id := "r1"
    insight := "Based on analytical planning and supported by rainwater harvesting, focus on Reduce water waste with cross-domain validation."
    meta :=
      { alignment_score := 0.8
        conflict_score := 0
        novelty_score := 27/50
        strategy := "harmony"
        nova_confidence := 0.7
        orvyn_confidence := 0.9 }
    rationale :=
      [ "nova: 1 candidate actions"
      , "orvyn: 1 analogies across 2 domains"
      , "synthesis: harmony strategy (alignment: 0.80, conflict: 0.00)" ]
    confidence := 71/100 }

/-- Analytic result whose single action trips both antonym checks: it
contains "traditional" and "reduce". -/
def novaC4 : NovaResult :=
  { request_id := "r2"
    payload :=
      { logic_tree := { root := "x", steps := [], complexity := "low", domain := "general" }
        candidate_actions := ["Reduce traditional methods"]
        confidence := 0.5 } }

/-- Associative result carrying the "innovation" tag and the word
"increase" in its rendered text. -/
def orvynC4 : OrvynResult :=
  { request_id := "r2"
    payload :=
      { analogies := [{ snippet := "increase efficiency", similarity := 0.5, tags := ["innovation"] }]
        domain_coverage := 1
        resonance_map := { innovation_potential := 0.5 }
        confidence := 0.5 } }

/-- Associative result with innovation_potential 0 and domain_coverage
10, inside the claimed precondition range. -/
def orvynC5 : OrvynResult :=
  { request_id := "r3"
    payload :=
      { analogies := []
        domain_coverage := 10
        resonance_map := { innovation_potential := 0 }
        confidence := 0 } }

/-! Claim theorems. -/

/-- Claim C1 fails on the code: the read loop of
LumenCore.start_listening keeps no record of decided request_ids (the
cache entry is deleted the moment the decision is published), and it
xreads the stream from id 0 on every iteration, so re-observing the
nova and orvyn results of an already decided request builds the entry
again and publishes a second decision.  Replaying the pair for request
r1 yields two published decisions, not one. -/
theorem lumen_replay_publishes_second_decision :
    (lumen_run [⟨"r1", "nova"⟩, ⟨"r1", "orvyn"⟩, ⟨"r1", "nova"⟩, ⟨"r1", "orvyn"⟩]).2
        = ["r1", "r1"] ∧
    ((lumen_run [⟨"r1", "nova"⟩, ⟨"r1", "orvyn"⟩, ⟨"r1", "nova"⟩, ⟨"r1", "orvyn"⟩]).2.count "r1"
        = 2 ∧ (2 : ℕ) ≠ 1) := by
  decide

/-- Claim C2: strategy selection is the ordered first-match policy with
the boundary values 0.75, 0.45, 0.35 included in the comparisons. -/
theorem select_strategy_threshold_policy (a c n : ℚ) :
    ((0.75 : ℚ) ≤ a → select_strategy a c n = "harmony") ∧
    (a < 0.75 → (0.45 : ℚ) ≤ a → (0.35 : ℚ) ≤ c → select_strategy a c n = "creative") ∧
    (a < 0.75 → ¬((0.45 : ℚ) ≤ a ∧ (0.35 : ℚ) ≤ c) → select_strategy a c n = "conservative") := by
  refine ⟨fun h => ?_, fun h1 h2 h3 => ?_, fun h1 h2 => ?_⟩
  · simp [select_strategy, policy_thresholds_alignment_high, h]
  · simp [select_strategy, policy_thresholds_alignment_high, policy_thresholds_alignment_mid,
      policy_thresholds_conflict_mid, not_le.mpr h1, h2, h3]
  · simp [select_strategy, policy_thresholds_alignment_high, policy_thresholds_alignment_mid,
      policy_thresholds_conflict_mid, not_le.mpr h1, h2]

/-- Witness for C2 at the named and boundary inputs: 0.8 gives harmony,
(0.5, 0.4) gives creative, (0.5, 0.2) gives conservative, 0.75 gives
harmony, (0.45, 0.35) gives creative. -/
theorem select_strategy_threshold_policy_witness :
    select_strategy 0.8 0 0 = "harmony" ∧
    select_strategy 0.5 0.4 0 = "creative" ∧
    select_strategy 0.5 0.2 0 = "conservative" ∧
    select_strategy 0.75 0.2 0 = "harmony" ∧
    select_strategy 0.45 0.35 0 = "creative" :=
  ⟨(select_strategy_threshold_policy 0.8 0 0).1 (by norm_num),
   (select_strategy_threshold_policy 0.5 0.4 0).2.1 (by norm_num) (by norm_num) (by norm_num),
   (select_strategy_threshold_policy 0.5 0.2 0).2.2 (by norm_num) (by norm_num),
   (select_strategy_threshold_policy 0.75 0.2 0).1 (by norm_num),
   (select_strategy_threshold_policy 0.45 0.35 0).2.1 (by norm_num) (by norm_num) (by norm_num)⟩

/-- Claim C3: every decision that process_core_results returns carries
confidence 0.4 times the nova confidence plus 0.3 times the orvyn
confidence (which the spec-modelled orvyn worker sets to the maximum
analogy similarity) plus 0.2 times alignment minus 0.1 times conflict,
clamped to [0,1]. -/
theorem lumen_confidence_formula (e : Option ℚ) (nr : NovaResult) (ov : OrvynResult)
    (d : Decision)
    (hconf : ov.payload.confidence = orvyn_confidence_spec ov.payload.analogies)
    (hd : process_core_results e nr ov = some d) :
    d.confidence =
      max 0 (min 1 (0.4 * nr.payload.confidence
        + 0.3 * orvyn_confidence_spec ov.payload.analogies
        + 0.2 * d.meta.alignment_score - 0.1 * d.meta.conflict_score)) := by
  simp only [process_core_results, Option.map_eq_some'] at hd
  obtain ⟨p, hG, hmk⟩ := hd
  subst hmk
  simp only [calculate_confidence]
  rw [hconf]
  congr 2
  ring

/-- Witness for C3: the spec scenario inputs produce decisionEx, whose
confidence 0.71 matches the formula. -/
theorem lumen_confidence_formula_witness :
    orvynEx.payload.confidence = orvyn_confidence_spec orvynEx.payload.analogies ∧
    process_core_results (some 0.8) novaEx orvynEx = some decisionEx ∧
    decisionEx.confidence =
      max 0 (min 1 (0.4 * novaEx.payload.confidence
        + 0.3 * orvyn_confidence_spec orvynEx.payload.analogies
        + 0.2 * decisionEx.meta.alignment_score - 0.1 * decisionEx.meta.conflict_score)) :=
  ⟨by with_unfolding_all rfl, by with_unfolding_all rfl,
   lumen_confidence_formula (some 0.8) novaEx orvynEx decisionEx
     (by with_unfolding_all rfl) (by with_unfolding_all rfl)⟩

/-- Claim C4 fails on the code: one candidate action can contribute two
conflict indicators (both antonym checks fire) while total_checks is
incremented only once per action, so the quotient exceeds 1.  On the
action "Reduce traditional methods" against an orvyn result tagged
"innovation" whose text contains "increase", the conflict score is
exactly 2. -/
theorem conflict_score_exceeds_one :
    calculate_conflict_score novaC4 orvynC4 = 2 ∧
    ¬(calculate_conflict_score novaC4 orvynC4 ≤ 1) := by
  have h : calculate_conflict_score novaC4 orvynC4 = 2 := by with_unfolding_all rfl
  refine ⟨h, ?_⟩
  rw [h]
  norm_num

/-- Counterexample to claim C5 as stated: at innovation_potential 0 and
domain_coverage 10 (inside the claimed precondition range) the code
yields 0.6 while the claimed formula with the inner min cap yields
0.3. -/
theorem novelty_differs_from_spec_formula :
    (0 : ℚ) ≤ orvynC5.payload.resonance_map.innovation_potential ∧
    orvynC5.payload.resonance_map.innovation_potential ≤ 1 ∧
    calculate_novelty_score orvynC5 = 3/5 ∧
    novelty_spec_formula orvynC5.payload.resonance_map.innovation_potential
      orvynC5.payload.domain_coverage = 3/10 ∧
    calculate_novelty_score orvynC5 ≠
      novelty_spec_formula orvynC5.payload.resonance_map.innovation_potential
        orvynC5.payload.domain_coverage := by
  have h1 : calculate_novelty_score orvynC5 = 3/5 := by with_unfolding_all rfl
  have h2 : novelty_spec_formula orvynC5.payload.resonance_map.innovation_potential
      orvynC5.payload.domain_coverage = 3/10 := by with_unfolding_all rfl
  refine ⟨by norm_num [orvynC5], by norm_num [orvynC5], h1, h2, ?_⟩
  rw [h1, h2]
  norm_num

/-- Amended claim C5: the code computes
min(0.7 * innovation_potential + 0.3 * (domain_coverage / 5), 1) with
no inner cap on the coverage ratio; the result still lies in [0,1]
when innovation_potential does, and domain_coverage 0 yields 0.7 times
innovation_potential. -/
theorem calculate_novelty_amended (r : OrvynResult)
    (h0 : 0 ≤ r.payload.resonance_map.innovation_potential)
    (h1 : r.payload.resonance_map.innovation_potential ≤ 1) :
    calculate_novelty_score r
        = min (0.7 * r.payload.resonance_map.innovation_potential
            + 0.3 * ((r.payload.domain_coverage : ℚ) / 5)) 1 ∧
    0 ≤ calculate_novelty_score r ∧
    calculate_novelty_score r ≤ 1 ∧
    (r.payload.domain_coverage = 0 →
      calculate_novelty_score r = 0.7 * r.payload.resonance_map.innovation_potential) := by
  have hdc : (0 : ℚ) ≤ (r.payload.domain_coverage : ℚ) := Nat.cast_nonneg _
  have hip7 : (0 : ℚ) ≤ r.payload.resonance_map.innovation_potential * 0.7 := by
    have : (0 : ℚ) ≤ (0.7 : ℚ) := by norm_num
    exact mul_nonneg h0 this
  have hcov : (0 : ℚ) ≤ (r.payload.domain_coverage : ℚ) / 5 * 0.3 := by positivity
  refine ⟨?_, ?_, ?_, ?_⟩
  · simp only [calculate_novelty_score]
    congr 1
    ring
  · simp only [calculate_novelty_score]
    exact le_min (by linarith) (by norm_num)
  · simp only [calculate_novelty_score]
    exact min_le_right _ _
  · intro hz
    simp only [calculate_novelty_score, hz]
    rw [min_eq_left (by push_cast; linarith)]
    push_cast
    ring

/-- Witness for the amended C5 at the spec scenario orvyn result:
innovation_potential 0.6, domain_coverage 2 give novelty 0.54. -/
theorem calculate_novelty_amended_witness :
    (0 : ℚ) ≤ orvynEx.payload.resonance_map.innovation_potential ∧
    orvynEx.payload.resonance_map.innovation_potential ≤ 1 ∧
    (calculate_novelty_score orvynEx
        = min (0.7 * orvynEx.payload.resonance_map.innovation_potential
            + 0.3 * ((orvynEx.payload.domain_coverage : ℚ) / 5)) 1 ∧
      0 ≤ calculate_novelty_score orvynEx ∧
      calculate_novelty_score orvynEx ≤ 1 ∧
      (orvynEx.payload.domain_coverage = 0 →
        calculate_novelty_score orvynEx
          = 0.7 * orvynEx.payload.resonance_map.innovation_potential)) :=
  ⟨by norm_num [orvynEx], by norm_num [orvynEx],
   calculate_novelty_amended orvynEx (by norm_num [orvynEx]) (by norm_num [orvynEx])⟩

/-- Claim C6 fails on the code: the xadd to the core_results channel
sits inside the try body of NovaCore.process_request only; the except
branch builds the fallback result and returns it to a read loop that
discards it.  On a request whose computation raises, the list of
published messages is empty even though the returned fallback carries
confidence 0.3 — the correlator never receives a result from nova for
that request. -/
theorem nova_error_result_not_published :
    (nova_process_request none "r1" "query").1 = [] ∧
    ((nova_process_request none "r1" "query").2).payload.confidence = 0.3 :=
  ⟨rfl, by with_unfolding_all rfl⟩

/-- Claim C7 fails on the code: the HTTPException(408) raised on
timeout inside the try body of think_endpoint is itself an Exception,
so the blanket handler catches it and re-raises HTTPException(500), and
the caller sees a server error instead of the distinct timeout
status. -/
theorem timeout_surfaces_as_server_error :
    response_status (think_endpoint none) = 500 ∧
    response_status (think_endpoint none) ≠ 408 ∧
    response_detail (think_endpoint none)
      = "Ошибка обработки запроса: 408: Timeout waiting for processing" := by
  have h : response_status (think_endpoint none) = 500 := rfl
  exact ⟨h, by rw [h]; norm_num, rfl⟩

/-- Claim C8 fails on the code: the harmony template calls Python max()
over the analogies and the creative template indexes the second sorted
analogy, so an empty analogy list crashes harmony and fewer than two
analogies crash creative; only the conservative template and the empty
action list are guarded with placeholders. -/
theorem insight_templates_crash_on_empty_analogies :
    harmony_fusion ["Internal audit"] [] = none ∧
    creative_fusion ["Internal audit"] [⟨"s", 0.5, []⟩] = none ∧
    creative_fusion ["Internal audit"] [] = none ∧
    conservative_synthesis [] [] = "Primary recommendation: proceed with analytical framework." ∧
    harmony_fusion [] [⟨"s", 0.5, []⟩]
      = some "Based on analytical planning and supported by s, focus on the identified solution with cross-domain validation." :=
  ⟨rfl, by with_unfolding_all rfl, rfl, rfl, by with_unfolding_all rfl⟩

/-- Claim C9: select_strategy never reads its novelty argument, so the
selected strategy is the same for any two novelty values. -/
theorem select_strategy_ignores_novelty (a c n₁ n₂ : ℚ) :
    select_strategy a c n₁ = select_strategy a c n₂ := rfl

/-- Claim C10: for every query string and action list the analytic
confidence lies in [0, 0.95] (base capped at 0.8, total at 0.95), and
the fallback payload carries confidence exactly 0.3. -/
theorem nova_confidence_bounds (query : String) (actions : List String) :
    0 ≤ nova_calculate_confidence query actions ∧
    nova_calculate_confidence query actions ≤ 0.95 ∧
    (create_fallback_result "r" "q").payload.confidence = 0.3 := by
  refine ⟨?_, ?_, rfl⟩
  · simp only [nova_calculate_confidence]
    have h1 : (0 : ℚ) ≤ (query.length : ℚ) / 100 := by positivity
    have h2 : (0 : ℚ) ≤ (actions.length : ℚ) * 0.05 := by positivity
    have h3 : (0 : ℚ) ≤ min ((query.length : ℚ) / 100) 0.8 := le_min h1 (by norm_num)
    exact le_min (by linarith) (by norm_num)
  · simp only [nova_calculate_confidence]
    exact min_le_right _ _

end NovaProject
